import Mathlib

/-!
Verification of `src/bin/extract-amplicon.py` (haploSC2).

The script is a four-stage pipeline: `parse_bed_file` locates an amplicon
interval in a BED file, `extract_mapped_reads` filters the reads yielded by a
region fetch, `trim_mapped_reads` clips each read to the interval, and
`write_mapped_reads_to_bam` serializes the result.  Each Python function is
embedded below as a pure Lean function over explicit data; Python exceptions
become `Except.error` with the corresponding message.  File handles and the
pysam fetch are external collaborators: a BED file is modelled as the list of
its lines, and the fetch result as the list of reads it yields.
-/

/-- Python `needle in hay` restricted to matching at the head of `hay`:
`matchesAt n h` is true when `n` is an initial segment of `h`. -/
def matchesAt : List Char → List Char → Bool
  | [], _ => true
  | _ :: _, [] => false
  | c :: cs, d :: ds => c == d && matchesAt cs ds

/-- `containsSub needle hay`: `needle` occurs contiguously somewhere in `hay`. -/
def containsSub (needle : List Char) : List Char → Bool
  | [] => matchesAt needle []
  | c :: cs => matchesAt needle (c :: cs) || containsSub needle cs

/-- Python substring containment `needle in hay` on strings. -/
def pyIn (needle hay : String) : Bool :=
  containsSub needle.data hay.data

/-- Drop leading whitespace characters. -/
def dropLeadingWs : List Char → List Char
  | [] => []
  | c :: cs => if c.isWhitespace then dropLeadingWs cs else c :: cs

/-- Python `str.strip()` (leading/trailing whitespace removed). -/
def pyStrip (s : String) : String :=
  String.mk ((dropLeadingWs (dropLeadingWs s.data).reverse).reverse)

/-- Accumulator loop of `pySplitTab`: split a character list at every tab,
keeping empty fields, as Python `str.split('\t')` does. -/
def splitTabAux : List Char → List Char → List String
  | [], acc => [String.mk acc.reverse]
  | c :: cs, acc =>
      if c == '\t' then String.mk acc.reverse :: splitTabAux cs []
      else splitTabAux cs (c :: acc)

/-- Python `s.split('\t')`. -/
def pySplitTab (s : String) : List String :=
  splitTabAux s.data []

/-- The message of the `ValueError` Python raises when unpacking fewer than
four values into `chrom, start, end, name`. -/
def unpackMsg : String :=
  "ValueError: not enough values to unpack (expected 4)"

/-- Python tuple unpacking `chrom, start, end, name = l`: succeeds only when
`l` has exactly four elements, otherwise raises `ValueError`. -/
def pyUnpack4 (l : List String) : Except String (String × String × String × String) :=
  match l with
  | [a, b, c, d] => Except.ok (a, b, c, d)
  | _ => Except.error unpackMsg

/-- Read a non-empty digit run as a natural number; `none` when the run is
empty or a non-digit character appears. -/
def parseDigits : List Char → Option Nat → Option Nat
  | [], acc => acc
  | c :: cs, acc =>
      if c.isDigit then parseDigits cs (some (acc.getD 0 * 10 + (c.toNat - 48)))
      else none

/-- Python `int(s)` on a string field: an optional sign followed by digits,
otherwise a `ValueError`. -/
def pyInt (s : String) : Except String Int :=
  let fail : Except String Int :=
    Except.error ("ValueError: invalid literal for int: " ++ s)
  match s.data with
  | '-' :: rest =>
      match parseDigits rest none with
      | some n => Except.ok (-(n : Int))
      | none => fail
  | '+' :: rest =>
      match parseDigits rest none with
      | some n => Except.ok (n : Int)
      | none => fail
  | cs =>
      match parseDigits cs none with
      | some n => Except.ok (n : Int)
      | none => fail

/-- The loop of `parse_bed_file` (source lines 33-43).  One BED line at a
time: strip, split on tabs, take the `[0:3]` slice, unpack into four names;
on a forward-primer match set `ref`/`amplicon_start` and `continue` (the
break check is skipped); on a reverse-primer match set `amplicon_end`; break
as soon as all three are set.  Returns the captured state. -/
def parseBedLoop (amplicon_name fwd_primer rev_primer : String) :
    List String → Option String → Option Int → Option Int →
    Except String (Option String × Option Int × Option Int)
  | [], ref, amplicon_start, amplicon_end =>
      Except.ok (ref, amplicon_start, amplicon_end)
  | line :: rest, ref, amplicon_start, amplicon_end =>
      match pyUnpack4 ((pySplitTab (pyStrip line)).take 3) with
      | Except.error m => Except.error m
      | Except.ok (chrom, startField, endField, name) =>
          if pyIn amplicon_name name && pyIn fwd_primer name then
            match pyInt startField with
            | Except.error m => Except.error m
            | Except.ok sv =>
                parseBedLoop amplicon_name fwd_primer rev_primer rest
                  (some chrom) (some sv) amplicon_end
          else if pyIn amplicon_name name && pyIn rev_primer name then
            match pyInt endField with
            | Except.error m => Except.error m
            | Except.ok ev =>
                let amplicon_end := some ev
                if ref.isSome && amplicon_start.isSome && amplicon_end.isSome then
                  Except.ok (ref, amplicon_start, amplicon_end)
                else
                  parseBedLoop amplicon_name fwd_primer rev_primer rest
                    ref amplicon_start amplicon_end
          else
            if ref.isSome && amplicon_start.isSome && amplicon_end.isSome then
              Except.ok (ref, amplicon_start, amplicon_end)
            else
              parseBedLoop amplicon_name fwd_primer rev_primer rest
                ref amplicon_start amplicon_end

/-- `parse_bed_file` (source lines 26-47) on the list of the BED file lines:
run the scan loop, then return the triple when reference, start and end were
all captured, otherwise raise the "not found" `ValueError`. -/
def parse_bed_file (bed_lines : List String)
    (amplicon_name fwd_primer rev_primer : String) :
    Except String (String × Int × Int) :=
  match parseBedLoop amplicon_name fwd_primer rev_primer bed_lines none none none with
  | Except.error m => Except.error m
  | Except.ok (some ref, some s, some e) => Except.ok (ref, s, e)
  | Except.ok _ =>
      Except.error ("ValueError: Amplicon " ++ amplicon_name ++ " not found in the BED file.")

/-- The reference-sequence metadata attached to every read (pysam
`AlignmentHeader`), modelled by its reference-name set. -/
structure AlignmentHeader where
  references : List String
deriving DecidableEq, Repr

/-- `header.to_dict()`. -/
def AlignmentHeader.to_dict (h : AlignmentHeader) : List String :=
  h.references

/-- `pysam.AlignmentHeader.from_dict(d)`. -/
def AlignmentHeader.from_dict (d : List String) : AlignmentHeader :=
  AlignmentHeader.mk d

/-- One pysam `AlignedSegment`, restricted to the fields the script touches.
`query_qualities` is `none` when the read carries no per-base qualities. -/
structure AlignedSegment where
  query_name : String
  is_unmapped : Bool
  reference_start : Int
  reference_end : Int
  query_sequence : List Char
  query_qualities : Option (List Nat)
  header : AlignmentHeader
deriving DecidableEq, Repr

/-- First disjunct of the overlap test (source line 58):
`read.reference_start >= start and read.reference_end <= end`. -/
def fullyContained (read : AlignedSegment) (s e : Int) : Bool :=
  decide (read.reference_start ≥ s) && decide (read.reference_end ≤ e)

/-- Second disjunct (source line 59):
`read.reference_start <= start and read.reference_end >= start`. -/
def overlapsStart (read : AlignedSegment) (s e : Int) : Bool :=
  decide (read.reference_start ≤ s) && decide (read.reference_end ≥ s)

/-- Third disjunct (source line 60):
`read.reference_start <= end and read.reference_end >= end`. -/
def overlapsEnd (read : AlignedSegment) (s e : Int) : Bool :=
  decide (read.reference_start ≤ e) && decide (read.reference_end ≥ e)

/-- The three-way overlap disjunction of `extract_mapped_reads`
(source lines 58-60). -/
def overlapCondition (read : AlignedSegment) (s e : Int) : Bool :=
  fullyContained read s e || overlapsStart read s e || overlapsEnd read s e

/-- `extract_mapped_reads` (source lines 50-67) applied to the reads yielded
by `bam.fetch(chrom, start, end)`: keep a read when it is mapped and one of
the three overlap conditions holds, and its query name does not contain
"junction"; kept reads are appended in iteration order. -/
def extract_mapped_reads : List AlignedSegment → Int → Int → List AlignedSegment
  | [], _, _ => []
  | read :: rest, s, e =>
      if !read.is_unmapped && overlapCondition read s e then
        if !(pyIn "junction" read.query_name) then
          read :: extract_mapped_reads rest s e
        else
          extract_mapped_reads rest s e
      else
        extract_mapped_reads rest s e

/-- Python slice `xs[i:]` for an arbitrary integer `i` (a negative index
counts from the end; out-of-range indices clamp). -/
def pySliceFrom {α : Type} (xs : List α) (i : Int) : List α :=
  if i < 0 then xs.drop ((xs.length : Int) + i).toNat else xs.drop i.toNat

/-- Python slice `xs[:j]` for an arbitrary integer `j`. -/
def pySliceTo {α : Type} (xs : List α) (j : Int) : List α :=
  if j < 0 then xs.take ((xs.length : Int) + j).toNat else xs.take j.toNat

/-- The `TypeError` Python raises when slicing an absent (None) quality
array. -/
def noneSubscriptMsg : String :=
  "TypeError: NoneType object is not subscriptable"

/-- Slice an optional quality array; slicing `None` raises `TypeError`. -/
def sliceQualsFrom (q : Option (List Nat)) (i : Int) : Except String (List Nat) :=
  match q with
  | none => Except.error noneSubscriptMsg
  | some qs => Except.ok (pySliceFrom qs i)

/-- Truncating slice of an optional quality array; `None` raises
`TypeError`. -/
def sliceQualsTo (q : Option (List Nat)) (j : Int) : Except String (List Nat) :=
  match q with
  | none => Except.error noneSubscriptMsg
  | some qs => Except.ok (pySliceTo qs j)

/-- First clip of the `trim_mapped_reads` loop body (source lines 74-78):
when `reference_start < start`, drop `start - reference_start` leading bases
from both the sequence and the quality array and set
`reference_start = start`. -/
def clipFront (read : AlignedSegment) (s : Int) : Except String AlignedSegment :=
  if read.reference_start < s then
    match sliceQualsFrom read.query_qualities (s - read.reference_start) with
    | Except.error m => Except.error m
    | Except.ok quals =>
        Except.ok { read with
          query_sequence := pySliceFrom read.query_sequence (s - read.reference_start)
          query_qualities := some quals
          reference_start := s }
  else Except.ok read

/-- Second clip of the loop body (source lines 79-83): when
`reference_end > end`, truncate sequence and quality to
`end - reference_start` (the current, possibly already-updated start) and
set `reference_end = end`. -/
def clipBack (read : AlignedSegment) (e : Int) : Except String AlignedSegment :=
  if read.reference_end > e then
    match sliceQualsTo read.query_qualities (e - read.reference_start) with
    | Except.error m => Except.error m
    | Except.ok quals =>
        Except.ok { read with
          query_sequence := pySliceTo read.query_sequence (e - read.reference_start)
          query_qualities := some quals
          reference_end := e }
  else Except.ok read

/-- The body of the `trim_mapped_reads` loop (source lines 73-84) for one
read: the start clip runs first, then the end clip sees the updated
`reference_start`. -/
def trimRead (read : AlignedSegment) (s e : Int) : Except String AlignedSegment :=
  match clipFront read s with
  | Except.error m => Except.error m
  | Except.ok r1 => clipBack r1 e

/-- `trim_mapped_reads` (source lines 70-85): trim each read in order and
append it to the result; the first raised exception aborts the run. -/
def trim_mapped_reads : List AlignedSegment → Int → Int → Except String (List AlignedSegment)
  | [], _, _ => Except.ok []
  | read :: rest, s, e =>
      match trimRead read s e with
      | Except.error m => Except.error m
      | Except.ok r =>
          match trim_mapped_reads rest s e with
          | Except.error m => Except.error m
          | Except.ok rs => Except.ok (r :: rs)

/-- The output alignment file of `write_mapped_reads_to_bam`: its header and
the reads written, in order. -/
structure BamOutput where
  header : AlignmentHeader
  reads : List AlignedSegment
deriving DecidableEq, Repr

/-- `write_mapped_reads_to_bam` (source lines 88-94): derive the header from
`mapped_reads[0]` (indexing an empty list raises `IndexError`), then write
every read in order. -/
def write_mapped_reads_to_bam (mapped_reads : List AlignedSegment) :
    Except String BamOutput :=
  match mapped_reads with
  | [] => Except.error "IndexError: list index out of range"
  | first :: _ =>
      Except.ok
        { header := AlignmentHeader.from_dict (AlignmentHeader.to_dict first.header)
          reads := mapped_reads }

/-- A one-contig header shared by the demonstration reads. -/
def demoHeader : AlignmentHeader :=
  AlignmentHeader.mk ["chr1"]

/-- A mapped read lying fully inside the interval `[10, 40)`. -/
def demoReadIn : AlignedSegment :=
  { query_name := "read_in"
    is_unmapped := false
    reference_start := 12
    reference_end := 20
    query_sequence := ['A', 'C', 'G', 'T']
    query_qualities := some [30, 30, 30, 30]
    header := demoHeader }

/-- A mapped read entirely to the right of the interval `[10, 40)`. -/
def demoReadOut : AlignedSegment :=
  { query_name := "read_out"
    is_unmapped := false
    reference_start := 50
    reference_end := 60
    query_sequence := ['A', 'C', 'G', 'T']
    query_qualities := some [30, 30, 30, 30]
    header := demoHeader }

/-- The double-clip example read of the spec: start 5, end 50, 45 bases. -/
def demoReadSpan : AlignedSegment :=
  { query_name := "read_span"
    is_unmapped := false
    reference_start := 5
    reference_end := 50
    query_sequence := List.replicate 45 'A'
    query_qualities := some (List.replicate 45 30)
    header := demoHeader }

/-- `demoReadSpan` after trimming to `[10, 40]`: start 10, end 40, the 5
leading bases dropped and 30 bases retained. -/
def demoReadSpanTrimmed : AlignedSegment :=
  { demoReadSpan with
    reference_start := 10
    reference_end := 40
    query_sequence := List.replicate 30 'A'
    query_qualities := some (List.replicate 30 30) }

/-- A read that needs a front clip against `[10, 40]` but carries no quality
array. -/
def demoReadNoQuals : AlignedSegment :=
  { query_name := "read_noquals"
    is_unmapped := false
    reference_start := 5
    reference_end := 20
    query_sequence := ['A', 'C', 'G', 'T']
    query_qualities := none
    header := demoHeader }

/-- A mapped read needing only a front clip against `[10, 40]`. -/
def demoReadFront : AlignedSegment :=
  { query_name := "read_front"
    is_unmapped := false
    reference_start := 8
    reference_end := 20
    query_sequence := ['A', 'C', 'G', 'T']
    query_qualities := some [1, 2, 3, 4]
    header := demoHeader }

/-- `demoReadFront` after trimming to `[10, 40]`: two leading bases dropped. -/
def demoReadFrontTrimmed : AlignedSegment :=
  { demoReadFront with
    reference_start := 10
    query_sequence := ['G', 'T']
    query_qualities := some [3, 4] }

/-- Input list for the trim-preservation witness. -/
def demoTrimInList : List AlignedSegment :=
  [demoReadIn, demoReadFront]

/-- What `trim_mapped_reads` produces on `demoTrimInList` over `[10, 40]`. -/
def demoTrimOutList : List AlignedSegment :=
  [demoReadIn, demoReadFrontTrimmed]

/-- C1: the spec says a BED file holding a forward-primer record
`chr1 100 120 AMP1_LEFT` and a reverse-primer record `chr1 380 400 AMP1_RIGHT`
yields the interval `(chr1, 100, 400)`; the code instead raises
`ValueError: not enough values to unpack` on the very first line, because
`line.strip().split('\t')[0:3]` keeps only three fields yet is unpacked into
the four names `chrom, start, end, name`. -/
theorem parse_bed_unpack_bug :
    parse_bed_file ["chr1\t100\t120\tAMP1_LEFT", "chr1\t380\t400\tAMP1_RIGHT"]
      "AMP1" "_LEFT" "_RIGHT" = Except.error unpackMsg :=
  rfl

/-- C9: a record whose name contains the amplicon name and both primer
suffixes (`AMP1_LEFT_RIGHT`) is claimed to be classified as a forward-primer
record; the code never classifies it at all, raising the unpack `ValueError`
on that line first. -/
theorem parse_bed_both_suffix_bug :
    parse_bed_file ["chr1\t100\t120\tAMP1_LEFT_RIGHT", "chr1\t380\t400\tAMP1_RIGHT"]
      "AMP1" "_LEFT" "_RIGHT" = Except.error unpackMsg :=
  rfl

/-- C6: on a BED file with no matching record name the claim expects the
"not found" `ValueError` naming the amplicon; the code produces it only for
an empty file, while any file with at least one record dies earlier with the
unpack `ValueError`, which does not name the amplicon. -/
theorem parse_bed_not_found_bug :
    parse_bed_file [] "AMP1" "_LEFT" "_RIGHT"
        = Except.error "ValueError: Amplicon AMP1 not found in the BED file."
      ∧ parse_bed_file ["chr1\t100\t120\tOTHER"] "AMP1" "_LEFT" "_RIGHT"
        = Except.error unpackMsg
      ∧ pyIn "AMP1" unpackMsg = false :=
  ⟨rfl, rfl, rfl⟩

/-- C2 counterexample: a BED file listing two forward-primer records for
AMP1 and then a reverse record.  The claim says the returned reference and
start come from the first forward record, i.e. the result is
`Except.ok ("chr1", 100, 400)`; the code instead raises the unpack
`ValueError`, so nothing is ever taken from the first forward record. -/
theorem parse_bed_first_forward_cex :
    parse_bed_file
        ["chr1\t100\t120\tAMP1_LEFT", "chr1\t50\t70\tAMP1_LEFT", "chr1\t380\t400\tAMP1_RIGHT"]
        "AMP1" "_LEFT" "_RIGHT" = Except.error unpackMsg
      ∧ parse_bed_file
        ["chr1\t100\t120\tAMP1_LEFT", "chr1\t50\t70\tAMP1_LEFT", "chr1\t380\t400\tAMP1_RIGHT"]
        "AMP1" "_LEFT" "_RIGHT" ≠ Except.ok ("chr1", 100, 400) := by
  constructor
  · rfl
  · intro h
    exact Except.noConfusion ((rfl : parse_bed_file
        ["chr1\t100\t120\tAMP1_LEFT", "chr1\t50\t70\tAMP1_LEFT", "chr1\t380\t400\tAMP1_RIGHT"]
        "AMP1" "_LEFT" "_RIGHT" = Except.error unpackMsg) ▸ h)

/-- The `[0:3]` slice of the field list never has the four elements the
unpacking needs. -/
theorem pyUnpack4_take3 (l : List String) :
    pyUnpack4 (l.take 3) = Except.error unpackMsg := by
  match l with
  | [] => rfl
  | [a] => rfl
  | [a, b] => rfl
  | [a, b, c] => rfl
  | a :: b :: c :: d :: rest => rfl

/-- C2 amended: for every BED file with at least one record (and any
amplicon name and primer suffixes), `parse_bed_file` raises the unpack
`ValueError` on the first line, so no forward-primer record — first or
later — ever contributes a reference or start. -/
theorem parse_bed_nonempty_always_unpack_error (line : String)
    (rest : List String) (a f r : String) :
    parse_bed_file (line :: rest) a f r = Except.error unpackMsg := by
  have h := pyUnpack4_take3 (pySplitTab (pyStrip line))
  unfold parse_bed_file parseBedLoop
  rw [h]

/-- C3: a fetched read is kept exactly when it is mapped, one of the three
overlap conditions holds and its name does not contain "junction", and kept
reads stay in fetch order (the result is the order-preserving filter of the
fetch list); in particular the overlap test accepts every read fully inside
the interval and rejects every read disjoint from it. -/
theorem extract_mapped_reads_spec (fetched : List AlignedSegment) (s e : Int) :
    extract_mapped_reads fetched s e
        = fetched.filter (fun read =>
            (!read.is_unmapped && overlapCondition read s e)
              && !(pyIn "junction" read.query_name))
      ∧ (∀ read : AlignedSegment, s ≤ read.reference_start → read.reference_end ≤ e →
          overlapCondition read s e = true)
      ∧ (∀ read : AlignedSegment, s < e →
          read.reference_start ≤ read.reference_end →
          (read.reference_end < s ∨ e < read.reference_start) →
          overlapCondition read s e = false) := by
  refine ⟨?_, ?_, ?_⟩
  · induction fetched with
    | nil => rfl
    | cons r t ih =>
        simp only [extract_mapped_reads, List.filter_cons]
        cases hb : (!r.is_unmapped && overlapCondition r s e) with
        | false => simp [hb, ih]
        | true =>
            cases hj : (!(pyIn "junction" r.query_name)) with
            | false => simp [hb, hj, ih]
            | true => simp [hb, hj, ih]
  · intro read h1 h2
    simp only [overlapCondition, fullyContained, overlapsStart, overlapsEnd,
      Bool.or_eq_true, Bool.and_eq_true, decide_eq_true_eq, ge_iff_le]
    omega
  · intro read h0 h1 h2
    rw [← Bool.not_eq_true]
    simp only [overlapCondition, fullyContained, overlapsStart, overlapsEnd,
      Bool.or_eq_true, Bool.and_eq_true, decide_eq_true_eq, ge_iff_le]
    omega

/-- C3 witness: the spec on the concrete fetch list `[demoReadIn, demoReadOut]`
over the interval `[10, 40)`, with the fully-inside read accepted by the
overlap test and the disjoint read rejected. -/
theorem extract_mapped_reads_spec_witness :
    extract_mapped_reads [demoReadIn, demoReadOut] 10 40
        = List.filter (fun read =>
            (!read.is_unmapped && overlapCondition read 10 40)
              && !(pyIn "junction" read.query_name)) [demoReadIn, demoReadOut]
      ∧ overlapCondition demoReadIn 10 40 = true
      ∧ overlapCondition demoReadOut 10 40 = false :=
  ⟨(extract_mapped_reads_spec [demoReadIn, demoReadOut] 10 40).1,
   (extract_mapped_reads_spec [demoReadIn, demoReadOut] 10 40).2.1 demoReadIn
     (by decide) (by decide),
   (extract_mapped_reads_spec [demoReadIn, demoReadOut] 10 40).2.2 demoReadOut
     (by decide) (by decide) (by decide)⟩

/-- C5: for a well-formed read (`reference_start ≤ reference_end`) and
interval (`start < end`), the three-way disjunction of the overlap test is
equivalent to plain interval overlap, and a read strictly spanning the whole
interval satisfies conditions 2 and 3 simultaneously but not condition 1. -/
theorem overlap_conditions_equiv (read : AlignedSegment) (s e : Int)
    (hread : read.reference_start ≤ read.reference_end) (hint : s < e) :
    (overlapCondition read s e = true ↔
        (read.reference_start ≤ e ∧ read.reference_end ≥ s))
      ∧ (read.reference_start < s → read.reference_end > e →
          overlapsStart read s e = true ∧ overlapsEnd read s e = true
            ∧ fullyContained read s e = false) := by
  constructor
  · simp only [overlapCondition, fullyContained, overlapsStart, overlapsEnd,
      Bool.or_eq_true, Bool.and_eq_true, decide_eq_true_eq, ge_iff_le]
    omega
  · intro h1 h2
    refine ⟨?_, ?_, ?_⟩
    · simp only [overlapsStart, Bool.and_eq_true, decide_eq_true_eq, ge_iff_le]
      omega
    · simp only [overlapsEnd, Bool.and_eq_true, decide_eq_true_eq, ge_iff_le]
      omega
    · rw [← Bool.not_eq_true]
      simp only [fullyContained, Bool.and_eq_true, decide_eq_true_eq, ge_iff_le]
      omega

/-- C5 witness: the equivalence and the conditions-2-and-3-but-not-1 fact at
the concrete read spanning 5..50 against the interval `[10, 40)`. -/
theorem overlap_conditions_equiv_witness :
    (overlapCondition demoReadSpan 10 40 = true ↔
        (demoReadSpan.reference_start ≤ 40 ∧ demoReadSpan.reference_end ≥ 10))
      ∧ (overlapsStart demoReadSpan 10 40 = true
          ∧ overlapsEnd demoReadSpan 10 40 = true
          ∧ fullyContained demoReadSpan 10 40 = false) :=
  ⟨(overlap_conditions_equiv demoReadSpan 10 40 (by decide) (by decide)).1,
   (overlap_conditions_equiv demoReadSpan 10 40 (by decide) (by decide)).2
     (by decide) (by decide)⟩

/-- Closed form of `clipFront` when the read starts before the interval and
has a quality array. -/
theorem clipFront_spec (r : AlignedSegment) (s : Int) (quals : List Nat)
    (hq : r.query_qualities = some quals) (h1 : r.reference_start < s) :
    clipFront r s = Except.ok { r with
      query_sequence := r.query_sequence.drop (s - r.reference_start).toNat
      query_qualities := some (quals.drop (s - r.reference_start).toNat)
      reference_start := s } := by
  have hng : ¬ (s - r.reference_start < 0) := by omega
  unfold clipFront
  rw [if_pos h1, hq]
  simp only [sliceQualsFrom, pySliceFrom, if_neg hng]

/-- Closed form of `clipBack` when the read ends past the interval and has a
quality array, with the truncation length measured from the current
`reference_start`. -/
theorem clipBack_spec (r : AlignedSegment) (e : Int) (quals : List Nat)
    (hq : r.query_qualities = some quals) (h3 : r.reference_end > e)
    (hng : ¬ (e - r.reference_start < 0)) :
    clipBack r e = Except.ok { r with
      query_sequence := r.query_sequence.take (e - r.reference_start).toNat
      query_qualities := some (quals.take (e - r.reference_start).toNat)
      reference_end := e } := by
  unfold clipBack
  rw [if_pos h3, hq]
  simp only [sliceQualsTo, pySliceTo, if_neg hng]

/-- C4: a read that starts before and ends past the interval is clipped at
the start first and the end-clip length is taken from the updated start:
the result keeps exactly the bases `start - reference_start` through
`start - reference_start + (end - start)` of the original sequence, with
`reference_start = start` and `reference_end = end`. -/
theorem trim_clip_order (read : AlignedSegment) (s e : Int) (quals : List Nat)
    (hq : read.query_qualities = some quals)
    (h1 : read.reference_start < s) (h2 : s < e) (h3 : read.reference_end > e) :
    trim_mapped_reads [read] s e = Except.ok [{ read with
      reference_start := s
      reference_end := e
      query_sequence :=
        (read.query_sequence.drop (s - read.reference_start).toNat).take (e - s).toNat
      query_qualities :=
        some ((quals.drop (s - read.reference_start).toNat).take (e - s).toNat) }] := by
  have hng2 : ¬ (e - s < 0) := by omega
  have hcf := clipFront_spec read s quals hq h1
  have hcb := clipBack_spec { read with
      query_sequence := read.query_sequence.drop (s - read.reference_start).toNat
      query_qualities := some (quals.drop (s - read.reference_start).toNat)
      reference_start := s } e (quals.drop (s - read.reference_start).toNat) rfl h3 hng2
  have ht : trimRead read s e = Except.ok { read with
      reference_start := s
      reference_end := e
      query_sequence :=
        (read.query_sequence.drop (s - read.reference_start).toNat).take (e - s).toNat
      query_qualities :=
        some ((quals.drop (s - read.reference_start).toNat).take (e - s).toNat) } := by
    unfold trimRead
    rw [hcf]
    exact hcb
  simp only [trim_mapped_reads, ht]

/-- C4 witness: the spec example read with start 5 and end 50 trimmed to the
interval `[10, 40]` ends at start 10 and end 40 with the 5 leading bases
dropped and 30 bases retained (out of the original 45). -/
theorem trim_clip_order_witness :
    trim_mapped_reads [demoReadSpan] 10 40 = Except.ok [demoReadSpanTrimmed]
      ∧ demoReadSpanTrimmed.reference_start = 10
      ∧ demoReadSpanTrimmed.reference_end = 40
      ∧ demoReadSpanTrimmed.query_sequence.length = 30
      ∧ demoReadSpan.query_sequence.length = 45 := by
  have h := trim_clip_order demoReadSpan 10 40 (List.replicate 45 30) rfl
    (by decide) (by decide) (by decide)
  refine ⟨?_, rfl, rfl, rfl, rfl⟩
  rw [h]
  rfl

/-- A front clip on a read without a quality array raises the `TypeError`. -/
theorem clipFront_no_quals (r : AlignedSegment) (s : Int)
    (hn : r.query_qualities = none) (h1 : r.reference_start < s) :
    clipFront r s = Except.error noneSubscriptMsg := by
  unfold clipFront
  rw [if_pos h1, hn]
  rfl

/-- An end clip on a read without a quality array raises the `TypeError`. -/
theorem clipBack_no_quals (r : AlignedSegment) (e : Int)
    (hn : r.query_qualities = none) (h3 : r.reference_end > e) :
    clipBack r e = Except.error noneSubscriptMsg := by
  unfold clipBack
  rw [if_pos h3, hn]
  rfl

/-- `trimRead` on a quality-less read that needs either clip raises the
`TypeError`. -/
theorem trimRead_missing_quals (read : AlignedSegment) (s e : Int)
    (hn : read.query_qualities = none)
    (hc : read.reference_start < s ∨ read.reference_end > e) :
    trimRead read s e = Except.error noneSubscriptMsg := by
  unfold trimRead
  by_cases h1 : read.reference_start < s
  · rw [clipFront_no_quals read s hn h1]
  · have hcf : clipFront read s = Except.ok read := by
      unfold clipFront
      rw [if_neg h1]
    rw [hcf]
    exact clipBack_no_quals read e hn (hc.resolve_left h1)

/-- The only exception `trimRead` can raise is the missing-quality
`TypeError`. -/
theorem trimRead_error_msg (read : AlignedSegment) (s e : Int) (m : String)
    (h : trimRead read s e = Except.error m) : m = noneSubscriptMsg := by
  unfold trimRead at h
  cases hcf : clipFront read s with
  | error m1 =>
      rw [hcf] at h
      have hm1 : m1 = noneSubscriptMsg := by
        unfold clipFront at hcf
        by_cases h1 : read.reference_start < s
        · rw [if_pos h1] at hcf
          cases hq : read.query_qualities with
          | none =>
              rw [hq] at hcf
              simpa [sliceQualsFrom] using hcf.symm
          | some q =>
              rw [hq] at hcf
              simp [sliceQualsFrom] at hcf
        · rw [if_neg h1] at hcf
          simp at hcf
      simp only [Except.error.injEq] at h
      rw [← h, hm1]
  | ok r1 =>
      rw [hcf] at h
      have hcb : clipBack r1 e = Except.error m := h
      unfold clipBack at hcb
      by_cases h3 : r1.reference_end > e
      · rw [if_pos h3] at hcb
        cases hq : r1.query_qualities with
        | none =>
            rw [hq] at hcb
            simpa [sliceQualsTo] using hcb.symm
        | some q =>
            rw [hq] at hcb
            simp [sliceQualsTo] at hcb
      · rw [if_neg h3] at hcb
        simp at hcb

/-- C7: whenever any read of the input list lacks its quality array and
requires a clip (it starts before the interval start or ends past the
interval end), `trim_mapped_reads` aborts with the missing-quality
`TypeError` instead of returning a read list, so no read with inconsistent
sequence/quality lengths is ever produced. -/
theorem trim_missing_quals (reads : List AlignedSegment) (s e : Int)
    (read : AlignedSegment) (hmem : read ∈ reads)
    (hn : read.query_qualities = none)
    (hc : read.reference_start < s ∨ read.reference_end > e) :
    trim_mapped_reads reads s e = Except.error noneSubscriptMsg := by
  induction reads with
  | nil => cases hmem
  | cons r t ih =>
      rcases List.mem_cons.mp hmem with hr | hr
      · subst hr
        simp only [trim_mapped_reads, trimRead_missing_quals read s e hn hc]
      · simp only [trim_mapped_reads]
        cases hdr : trimRead r s e with
        | error m => rw [trimRead_error_msg r s e m hdr]
        | ok r1 => rw [ih hr]

/-- C7 witness: a list whose second read lacks qualities and starts before
the interval makes `trim_mapped_reads` fail with the `TypeError`. -/
theorem trim_missing_quals_witness :
    trim_mapped_reads [demoReadIn, demoReadNoQuals] 10 40
      = Except.error noneSubscriptMsg :=
  trim_missing_quals [demoReadIn, demoReadNoQuals] 10 40 demoReadNoQuals
    (by simp) rfl (Or.inl (by decide))

/-- A successful front clip never changes the query name. -/
theorem clipFront_query_name (r r1 : AlignedSegment) (s : Int)
    (h : clipFront r s = Except.ok r1) : r1.query_name = r.query_name := by
  unfold clipFront at h
  by_cases h1 : r.reference_start < s
  · rw [if_pos h1] at h
    cases hq : r.query_qualities with
    | none =>
        rw [hq] at h
        simp [sliceQualsFrom] at h
    | some q =>
        rw [hq] at h
        simp only [sliceQualsFrom, Except.ok.injEq] at h
        rw [← h]
  · rw [if_neg h1] at h
    simp only [Except.ok.injEq] at h
    rw [← h]

/-- A successful end clip never changes the query name. -/
theorem clipBack_query_name (r r1 : AlignedSegment) (e : Int)
    (h : clipBack r e = Except.ok r1) : r1.query_name = r.query_name := by
  unfold clipBack at h
  by_cases h3 : r.reference_end > e
  · rw [if_pos h3] at h
    cases hq : r.query_qualities with
    | none =>
        rw [hq] at h
        simp [sliceQualsTo] at h
    | some q =>
        rw [hq] at h
        simp only [sliceQualsTo, Except.ok.injEq] at h
        rw [← h]
  · rw [if_neg h3] at h
    simp only [Except.ok.injEq] at h
    rw [← h]

/-- A successful trim never changes the query name. -/
theorem trimRead_query_name (r r1 : AlignedSegment) (s e : Int)
    (h : trimRead r s e = Except.ok r1) : r1.query_name = r.query_name := by
  unfold trimRead at h
  cases hcf : clipFront r s with
  | error m =>
      rw [hcf] at h
      simp at h
  | ok rm =>
      rw [hcf] at h
      exact (clipBack_query_name rm r1 e h).trans (clipFront_query_name r rm s hcf)

/-- C10: when `trim_mapped_reads` returns a list, it has exactly the length
of the input, position by position each output read is the trim of the input
read at the same position, and query names are preserved in order — trimming
never drops, duplicates or reorders a read. -/
theorem trim_preserves_reads (reads out : List AlignedSegment) (s e : Int)
    (h : trim_mapped_reads reads s e = Except.ok out) :
    out.length = reads.length
      ∧ out.map AlignedSegment.query_name = reads.map AlignedSegment.query_name
      ∧ List.Forall₂ (fun r r1 => trimRead r s e = Except.ok r1) reads out := by
  induction reads generalizing out with
  | nil =>
      simp only [trim_mapped_reads, Except.ok.injEq] at h
      rw [← h]
      exact ⟨rfl, rfl, List.Forall₂.nil⟩
  | cons r t ih =>
      simp only [trim_mapped_reads] at h
      cases hdr : trimRead r s e with
      | error m =>
          rw [hdr] at h
          simp at h
      | ok r1 =>
          rw [hdr] at h
          cases hrec : trim_mapped_reads t s e with
          | error m =>
              rw [hrec] at h
              simp at h
          | ok ts =>
              rw [hrec] at h
              simp only [Except.ok.injEq] at h
              rw [← h]
              obtain ⟨hl, hm, hf⟩ := ih ts hrec
              refine ⟨by simp [hl], ?_, List.Forall₂.cons hdr hf⟩
              simp [hm, trimRead_query_name r r1 s e hdr]

/-- C10 witness: the preservation facts at a concrete two-read list (one
read untouched, one front-clipped) over the interval `[10, 40]`. -/
theorem trim_preserves_reads_witness :
    demoTrimOutList.length = demoTrimInList.length
      ∧ demoTrimOutList.map AlignedSegment.query_name
          = demoTrimInList.map AlignedSegment.query_name
      ∧ List.Forall₂ (fun r r1 => trimRead r 10 40 = Except.ok r1)
          demoTrimInList demoTrimOutList :=
  trim_preserves_reads demoTrimInList demoTrimOutList 10 40 rfl

/-- C8 counterexample: on an empty read list the code fails by indexing
`mapped_reads[0]` — an `IndexError`, whose message does not contain
"nothing to write" — rather than with the explicit empty-input error the
claim describes. -/
theorem write_empty_cex :
    write_mapped_reads_to_bam [] = Except.error "IndexError: list index out of range"
      ∧ pyIn "nothing to write" "IndexError: list index out of range" = false :=
  ⟨rfl, rfl⟩

/-- C8 amended: on an empty read list `write_mapped_reads_to_bam` fails with
the `IndexError` from reading the missing first element (there is no
explicit empty check); on a non-empty list it writes exactly the given reads
with a header rebuilt from the first read's header dictionary. -/
theorem write_mapped_reads_spec :
    write_mapped_reads_to_bam [] = Except.error "IndexError: list index out of range"
      ∧ ∀ (first : AlignedSegment) (rest : List AlignedSegment),
          write_mapped_reads_to_bam (first :: rest)
            = Except.ok { header := first.header, reads := first :: rest } :=
  ⟨rfl, fun _ _ => rfl⟩
